import Mathlib

/-!
Verification of the CloudMouse firmware core (cloudmouse-example-lvgl).

This file gives a shallow embedding, in Lean 4, of the event-driven core of
the firmware: the Event message type and its WiFi payload helpers
(src/lib/core/Events.h), the bounded Event Bus (src/lib/core/EventBus.cpp),
the encoder input classifier (src/lib/hardware/EncoderManager.cpp), the LED
animation scheduler (src/lib/hardware/LEDManager.cpp), the WiFi network
manager (src/lib/network/WiFiManager.cpp) and the system coordinator state
setter (src/lib/core/Core.cpp).  Stateful C++ methods become pure functions
from a state record (plus the inputs the method reads: sampled pin levels,
the millis() clock, queue contents) to an updated record, paired with the
observable outputs the method emits where those matter (queued events, LED
strip show calls, logged transitions).  Machine integers are modelled as
Int or Nat; C++ unsigned subtraction of monotone timestamps is modelled by
truncated Nat subtraction.
-/

namespace CloudMouse

/-- Event type tag.  The C++ `EventType` enum is an opaque routing tag for
every property considered here, so it is modelled as a plain numeric tag
mirroring the enumerator values of src/lib/core/Events.h. -/
abbrev EventType := Nat

/-- Event message (src/lib/core/Events.h, struct Event): a kind tag, a
32-bit numeric payload and a 256-byte string buffer.  The buffer is
modelled as the list of characters before the terminating NUL; the C++
buffer bounds every stored string to at most 255 characters. -/
structure Event where
  type : EventType
  value : Int
  stringData : List Char
deriving DecidableEq

namespace Event

/-- Index of the first pipe separator in a character buffer, mirroring
Arduino String.indexOf over the stored characters: some i for the first
occurrence, none when no pipe is present. -/
def indexOfPipe : List Char → Option Nat
  | [] => none
  | c :: rest => if c = '|' then some 0 else (indexOfPipe rest).map (· + 1)

/-- Event.setWiFiData (Events.h): stores the connection time in `value` and
writes the buffer with snprintf(stringData, 256, "%s|%s", ssid, ip), which
truncates the formatted string to at most 255 characters. -/
def setWiFiData (ev : Event) (ssid ip : List Char) (connectionTime : Int) : Event :=
  { ev with value := connectionTime
            stringData := (ssid ++ '|' :: ip).take 255 }

/-- Event.getSSID (Events.h): the prefix of the buffer before the first
pipe separator, or the whole buffer when no separator is found. -/
def getSSID (ev : Event) : List Char :=
  match indexOfPipe ev.stringData with
  | some i => ev.stringData.take i
  | none => ev.stringData

/-- Event.getIP (Events.h): the suffix of the buffer after the first pipe
separator, or the empty string when no separator is found. -/
def getIP (ev : Event) : List Char :=
  match indexOfPipe ev.stringData with
  | some i => ev.stringData.drop (i + 1)
  | none => []

/-- Event.getConnectionTime (Events.h): returns the numeric payload. -/
def getConnectionTime (ev : Event) : Int :=
  ev.value

end Event

/-- EventBus state (src/lib/core/EventBus.h): two fixed-capacity FreeRTOS
queues of Event plus the initialization flag.  Queues are modelled as
lists, front of the list being the oldest element. -/
structure EventBus where
  initialized : Bool
  uiToMainQueue : List Event
  mainToUIQueue : List Event
deriving DecidableEq

namespace EventBus

/-- Queue capacity QUEUE_SIZE = 10 (EventBus.h). -/
def QUEUE_SIZE : Nat := 10

/-- FreeRTOS xQueueSend against a bounded queue with no concurrent
consumer: succeeds and appends when a slot is free, otherwise fails and
leaves the queue unchanged (with timeout 0 this is the non-blocking poll;
with a positive timeout and no consumer running, the call times out with
the same outcome). -/
def xQueueSend (q : List Event) (e : Event) : Bool × List Event :=
  if q.length < QUEUE_SIZE then (true, q ++ [e]) else (false, q)

/-- FreeRTOS xQueueReceive against a bounded queue with no concurrent
producer: pops the oldest element when present, otherwise fails. -/
def xQueueReceive (q : List Event) : Option Event × List Event :=
  match q with
  | [] => (none, [])
  | e :: rest => (some e, rest)

/-- EventBus::sendToMain (EventBus.cpp): false when not initialized,
otherwise attempts to queue the event on the UI-to-Core queue. -/
def sendToMain (bus : EventBus) (e : Event) (timeout : Nat) : Bool × EventBus :=
  if bus.initialized = false then (false, bus)
  else
    let r := xQueueSend bus.uiToMainQueue e
    (r.1, { bus with uiToMainQueue := r.2 })

/-- EventBus::sendToUI (EventBus.cpp): false when not initialized,
otherwise attempts to queue the event on the Core-to-UI queue. -/
def sendToUI (bus : EventBus) (e : Event) (timeout : Nat) : Bool × EventBus :=
  if bus.initialized = false then (false, bus)
  else
    let r := xQueueSend bus.mainToUIQueue e
    (r.1, { bus with mainToUIQueue := r.2 })

/-- EventBus::receiveFromUI (EventBus.cpp): none when not initialized,
otherwise attempts to pop the oldest event from the UI-to-Core queue (the
C++ boolean result is the some/none discriminator here). -/
def receiveFromUI (bus : EventBus) (timeout : Nat) : Option Event × EventBus :=
  if bus.initialized = false then (none, bus)
  else
    let r := xQueueReceive bus.uiToMainQueue
    (r.1, { bus with uiToMainQueue := r.2 })

/-- EventBus::receiveFromMain (EventBus.cpp): none when not initialized,
otherwise attempts to pop the oldest event from the Core-to-UI queue. -/
def receiveFromMain (bus : EventBus) (timeout : Nat) : Option Event × EventBus :=
  if bus.initialized = false then (none, bus)
  else
    let r := xQueueReceive bus.mainToUIQueue
    (r.1, { bus with mainToUIQueue := r.2 })

end EventBus

/-- Encoder press-classification constants
(src/lib/hardware/EncoderManager.h). -/
def ULTRA_LONG_PRESS_DURATION : Nat := 3000

/-- Long press threshold, 1000 ms (EncoderManager.h). -/
def LONG_PRESS_DURATION : Nat := 1000

/-- Click upper bound, 500 ms (EncoderManager.h). -/
def CLICK_TIMEOUT : Nat := 500

/-- EncoderManager interaction state (src/lib/hardware/EncoderManager.h):
the accumulated rotation delta, the one-shot event flags and the button
timing bookkeeping.  Button levels follow the hardware convention of the
source: `true` is HIGH (released), `false` is LOW (pressed). -/
structure EncoderState where
  lastValue : Int
  movement : Int
  movementPending : Bool
  lastButtonState : Bool
  pressStartTime : Nat
  lastPressDuration : Nat
  longPressBuzzed : Bool
  ultraLongPressNotified : Bool
  clickPending : Bool
  longPressPending : Bool
  ultraLongPressPending : Bool
deriving DecidableEq

namespace EncoderState

/-- Encoder state right after EncoderManager::init() sampled an initial
position `pos0` and an initial button level `level0` (EncoderManager.cpp,
init): the accumulator and every one-shot flag start cleared. -/
def init (pos0 : Int) (level0 : Bool) : EncoderState :=
  { lastValue := pos0.tdiv 4
    movement := 0
    movementPending := false
    lastButtonState := level0
    pressStartTime := 0
    lastPressDuration := 0
    longPressBuzzed := false
    ultraLongPressNotified := false
    clickPending := false
    longPressPending := false
    ultraLongPressPending := false }

/-- EncoderManager::processEncoder (EncoderManager.cpp): normalizes the
sampled hardware counter to detents (C++ truncating division by 4), and on
a change accumulates the delta and marks movement pending. -/
def processEncoder (s : EncoderState) (pos : Int) : EncoderState :=
  let newValue := pos.tdiv 4
  if newValue ≠ s.lastValue then
    { s with movement := s.movement + (newValue - s.lastValue)
             lastValue := newValue
             movementPending := true }
  else s

/-- Press-detection section of EncoderManager::processButton
(EncoderManager.cpp): on a falling edge, records the press start and
clears the notified guards. -/
def pressDetect (s : EncoderState) (cur : Bool) (t : Nat) : EncoderState :=
  if cur ≠ s.lastButtonState ∧ cur = false then
    { s with pressStartTime := t
             longPressBuzzed := false
             ultraLongPressNotified := false }
  else s

/-- Release-detection section of EncoderManager::processButton
(EncoderManager.cpp): on a rising edge, records the press duration and
classifies it by the three thresholds; durations in the 500-999 ms range
set no flag. -/
def classifyRelease (s : EncoderState) (cur : Bool) (t : Nat) : EncoderState :=
  if cur ≠ s.lastButtonState ∧ cur = true then
    let d := t - s.pressStartTime
    let sr := { s with lastPressDuration := d }
    if d ≥ ULTRA_LONG_PRESS_DURATION then
      if sr.ultraLongPressNotified = false then
        { sr with ultraLongPressPending := true, ultraLongPressNotified := true }
      else sr
    else if d ≥ LONG_PRESS_DURATION then
      { sr with longPressPending := true }
    else if d < CLICK_TIMEOUT then
      { sr with clickPending := true }
    else sr
  else s

/-- Ongoing-press section of EncoderManager::processButton
(EncoderManager.cpp): while held, the one-shot buzz and the immediate
ultra-long-press notification fire at their thresholds; while released, a
stale notified guard from a shorter press is cleared. -/
def ongoingPress (s : EncoderState) (cur : Bool) (t : Nat) : EncoderState :=
  if cur = false then
    let pressTime := t - s.pressStartTime
    let sa :=
      if pressTime ≥ LONG_PRESS_DURATION ∧ s.longPressBuzzed = false then
        { s with longPressBuzzed := true }
      else s
    if pressTime ≥ ULTRA_LONG_PRESS_DURATION ∧ sa.ultraLongPressNotified = false then
      { sa with ultraLongPressPending := true, ultraLongPressNotified := true }
    else sa
  else
    if s.ultraLongPressNotified = true ∧ s.lastPressDuration < ULTRA_LONG_PRESS_DURATION then
      { s with ultraLongPressNotified := false }
    else s

/-- EncoderManager::processButton (EncoderManager.cpp): the three
sections run in order on the sampled level `cur` at time `t` (millis),
and the sampled level is latched for the next tick's edge detection. -/
def processButton (s : EncoderState) (cur : Bool) (t : Nat) : EncoderState :=
  { ongoingPress (classifyRelease (pressDetect s cur t) cur t) cur t with
      lastButtonState := cur }

/-- EncoderManager::update (EncoderManager.cpp): one tick processes the
sampled rotation counter and the sampled button level. -/
def update (s : EncoderState) (pos : Int) (cur : Bool) (t : Nat) : EncoderState :=
  processButton (processEncoder s pos) cur t

/-- EncoderManager::getMovement (EncoderManager.cpp): consumes the
accumulated movement: returns it and zeroes the accumulator when pending,
otherwise returns zero. -/
def getMovement (s : EncoderState) : Int × EncoderState :=
  if s.movementPending then
    (s.movement, { s with movement := 0, movementPending := false })
  else (0, s)

/-- EncoderManager::getClicked (EncoderManager.cpp): consumes the one-shot
click flag. -/
def getClicked (s : EncoderState) : Bool × EncoderState :=
  if s.clickPending then (true, { s with clickPending := false }) else (false, s)

/-- EncoderManager::getLongPressed (EncoderManager.cpp): consumes the
one-shot long-press flag. -/
def getLongPressed (s : EncoderState) : Bool × EncoderState :=
  if s.longPressPending then (true, { s with longPressPending := false }) else (false, s)

/-- EncoderManager::getUltraLongPressed (EncoderManager.cpp): consumes the
one-shot ultra-long-press flag. -/
def getUltraLongPressed (s : EncoderState) : Bool × EncoderState :=
  if s.ultraLongPressPending then
    (true, { s with ultraLongPressPending := false })
  else (false, s)

end EncoderState

/-- One observable step of the encoder driver from the point of view of
its owning task: either an update tick with the sampled counter position,
button level and clock, or one of the consuming accessors (whose returned
value is discarded in a trace). -/
inductive EncoderOp where
  | tick (pos : Int) (cur : Bool) (t : Nat)
  | consumeMovement
  | consumeClick
  | consumeLongPress
  | consumeUltraLongPress
deriving DecidableEq

/-- Applies one encoder step to the state. -/
def encoderStep (s : EncoderState) : EncoderOp → EncoderState
  | .tick pos cur t => s.update pos cur t
  | .consumeMovement => (s.getMovement).2
  | .consumeClick => (s.getClicked).2
  | .consumeLongPress => (s.getLongPressed).2
  | .consumeUltraLongPress => (s.getUltraLongPressed).2

/-- Encoder state reached from init by a trace of steps. -/
def encoderRun (pos0 : Int) (level0 : Bool) (ops : List EncoderOp) : EncoderState :=
  ops.foldl encoderStep (EncoderState.init pos0 level0)

/-- Number of LEDs on the ring, NUM_LEDS = 12 (LEDManager.h). -/
def NUM_LEDS : Int := 12

/-- Init sweep step interval, ANIMATION_INTERVAL = 70 ms (LEDManager.h). -/
def ANIMATION_INTERVAL : Nat := 70

/-- Idle timeout before auto-dim, IDLE_DELAY_SECONDS = 5 (LEDManager.h). -/
def IDLE_DELAY_SECONDS : Nat := 5

/-- Pixel buffer contents of the NeoPixel strip as the LED scheduler
writes them: either every pixel holds the same color (resetAllLEDs /
setAllLEDs), or all pixels are off except a single sweep cursor pixel
(the init animation's resetAllLEDs followed by setPixelColor). -/
inductive LEDPixels where
  | uniform (r g b : Nat)
  | cursorOn (idx : Int) (r g b : Nat)
deriving DecidableEq

/-- One strip.show() call as observed on the hardware: the pixel buffer
and the brightness register at the moment of the call. -/
structure ShowCall where
  pixels : LEDPixels
  brightness : Int
deriving DecidableEq

/-- LED command kinds (LEDManager.h, enum LEDEventType). -/
inductive LEDEventType where
  | setLoading
  | flashColor
  | activate
  | setColor
deriving DecidableEq

/-- LED command message (LEDManager.h, struct LEDEvent). -/
structure LEDEvent where
  type : LEDEventType
  r : Nat
  g : Nat
  b : Nat
  brightness : Int
  duration : Nat
  state : Bool
deriving DecidableEq

/-- LEDManager animation state (LEDManager.h private fields, plus the two
function-static pulsation variables of updatePulsatingAnimation and the
strip's own brightness register and pixel buffer). -/
structure LEDState where
  pulsating : Bool
  loading : Bool
  flash : Bool
  fading : Bool
  inited : Bool
  initAnimationCompleted : Bool
  previousMillis : Nat
  lastEncMovementTime : Nat
  lastFlashStarted : Nat
  fadeStartMillis : Nat
  cursorLED : Int
  currentBrightness : Int
  startBrightness : Int
  targetBrightness : Int
  fadeDuration : Nat
  flashDuration : Nat
  clockwise : Bool
  baseRed : Nat
  baseGreen : Nat
  baseBlue : Nat
  red : Nat
  green : Nat
  blue : Nat
  stripBrightness : Int
  pixels : LEDPixels
  pulseLastUpdate : Nat
  pulseUp : Bool
deriving DecidableEq

namespace LEDState

/-- Conversion of a C++ int to the uint8_t accepted by
strip.setBrightness: reduction modulo 256. -/
def toByte (x : Int) : Int := x.emod 256

/-- Arduino map(): linear interpolation with C integer (truncating)
division, as used by updateFadeAnimation. -/
def arduinoMap (x inMin inMax outMin outMax : Int) : Int :=
  (x - inMin) * (outMax - outMin) / (inMax - inMin) + outMin

/-- LEDManager state after init() ran (LEDManager.h field initializers;
init() pushes currentBrightness = 250 to the strip and clears the pixel
buffer). -/
def init : LEDState :=
  { pulsating := true
    loading := false
    flash := false
    fading := false
    inited := false
    initAnimationCompleted := false
    previousMillis := 0
    lastEncMovementTime := 0
    lastFlashStarted := 0
    fadeStartMillis := 0
    cursorLED := 0
    currentBrightness := 250
    startBrightness := 0
    targetBrightness := 0
    fadeDuration := 3000
    flashDuration := 0
    clockwise := true
    baseRed := 0
    baseGreen := 181
    baseBlue := 214
    red := 0
    green := 0
    blue := 0
    stripBrightness := 250
    pixels := .uniform 0 0 0
    pulseLastUpdate := 0
    pulseUp := true }

/-- LEDManager::setAllLEDs (LEDManager.cpp): records the color and fills
the pixel buffer with it (no show). -/
def setAllLEDs (s : LEDState) (r g b : Nat) : LEDState :=
  { s with red := r, green := g, blue := b, pixels := .uniform r g b }

/-- LEDManager::resetAllLEDs (LEDManager.cpp): blanks the pixel buffer
without touching the recorded color. -/
def resetAllLEDs (s : LEDState) : LEDState :=
  { s with pixels := .uniform 0 0 0 }

/-- One strip.show() call in the current state. -/
def stripShow (s : LEDState) : ShowCall :=
  { pixels := s.pixels, brightness := s.stripBrightness }

/-- LEDManager::fadeToBrightness (LEDManager.cpp): arms a fade from the
current brightness toward the target; the fade start clock is only
captured when no fade was already running. -/
def fadeToBrightness (s : LEDState) (brightness : Int) (duration : Nat) (now : Nat) : LEDState :=
  let s1 := { s with startBrightness := s.currentBrightness
                     targetBrightness := brightness }
  let s2 := if s1.fading = false then { s1 with fadeStartMillis := now } else s1
  { s2 with fadeDuration := duration, fading := true }

/-- One case of LEDManager::processLEDEvents' switch (LEDManager.cpp):
applies a single dequeued command to the state at clock `now`, returning
the strip.show() calls it performs. -/
def processLEDEvent (s : LEDState) (e : LEDEvent) (now : Nat) : LEDState × List ShowCall :=
  match e.type with
  | .setLoading =>
    if e.state then
      let s1 := { s with loading := true
                         lastEncMovementTime := now
                         pulsating := false
                         fading := false }
      (setAllLEDs s1 244 70 17, [])
    else
      let s1 := { s with loading := false }
      let s2 := setAllLEDs s1 s1.baseRed s1.baseGreen s1.baseBlue
      (fadeToBrightness s2 200 150 now, [])
  | .flashColor =>
    let s1 := { s with pulsating := false
                       fading := false
                       flash := true
                       flashDuration := e.duration
                       lastFlashStarted := now
                       currentBrightness := e.brightness
                       stripBrightness := toByte e.brightness }
    let s2 := setAllLEDs s1 e.r e.g e.b
    (s2, [stripShow s2])
  | .activate =>
    let s1 := if s.loading = false then { s with lastEncMovementTime := now } else s
    let s2 := { s1 with pulsating := false
                        fading := false
                        currentBrightness := 255
                        stripBrightness := 255 }
    let s3 := setAllLEDs s2 s2.red s2.green s2.blue
    (s3, [stripShow s3])
  | .setColor =>
    let s1 := setAllLEDs s e.r e.g e.b
    let s2 := { s1 with baseRed := e.r, baseGreen := e.g, baseBlue := e.b }
    (s2, [stripShow s2])

/-- LEDManager::processLEDEvents (LEDManager.cpp): drains every pending
command from the queue, applying each in order. -/
def processLEDEvents (s : LEDState) (events : List LEDEvent) (now : Nat) :
    LEDState × List ShowCall :=
  events.foldl
    (fun acc e =>
      let r := processLEDEvent acc.1 e now
      (r.1, acc.2 ++ r.2))
    (s, [])

namespace Anim

/-- LEDManager::updateFlashAnimation (LEDManager.cpp): once the flash
duration has elapsed, ends the flash and restores the base color with a
show; before that, does nothing. -/
def updateFlashAnimation (s : LEDState) (now : Nat) : LEDState × List ShowCall :=
  if now - s.lastFlashStarted ≥ s.flashDuration then
    let s1 := { s with flash := false, flashDuration := 0 }
    let s2 := setAllLEDs s1 s1.baseRed s1.baseGreen s1.baseBlue
    (s2, [stripShow s2])
  else (s, [])

/-- LEDManager::updateFadeAnimation (LEDManager.cpp): while within the
fade window, interpolates the brightness linearly against wall-clock time
and shows; at expiry, latches the target brightness, clears the fading
flag and shows. -/
def updateFadeAnimation (s : LEDState) (now : Nat) : LEDState × List ShowCall :=
  let elapsedTime := now - s.fadeStartMillis
  if elapsedTime ≤ s.fadeDuration then
    let brightness :=
      arduinoMap (Int.ofNat elapsedTime) 0 (Int.ofNat s.fadeDuration)
        s.startBrightness s.targetBrightness
    let s1 := { s with stripBrightness := toByte brightness }
    let s2 := setAllLEDs s1 s1.red s1.green s1.blue
    (s2, [stripShow s2])
  else
    let s1 := { s with fading := false
                       currentBrightness := s.targetBrightness
                       stripBrightness := toByte s.targetBrightness }
    let s2 := setAllLEDs s1 s1.red s1.green s1.blue
    (s2, [stripShow s2])

/-- LEDManager::updateLoadingAnimation (LEDManager.cpp): re-arms fades
toward the loading brightness endpoints; performs no show itself. -/
def updateLoadingAnimation (s : LEDState) (now : Nat) : LEDState × List ShowCall :=
  let s1 := if s.currentBrightness ≠ 250 then fadeToBrightness s 250 50 now else s
  let s2 := if s1.currentBrightness ≠ 1 then fadeToBrightness s1 1 50 now else s1
  (s2, [])

/-- LEDManager::updatePulsatingAnimation (LEDManager.cpp): at 10 Hz,
breathes the brightness between 10 and 100 by arming fades. -/
def updatePulsatingAnimation (s : LEDState) (now : Nat) : LEDState × List ShowCall :=
  if now - s.pulseLastUpdate > 100 then
    let s1 := { s with pulseLastUpdate := now }
    if s1.pulseUp then
      if s1.currentBrightness < 100 then (fadeToBrightness s1 100 1500 now, [])
      else ({ s1 with pulseUp := false }, [])
    else
      if s1.currentBrightness > 10 then (fadeToBrightness s1 10 2000 now, [])
      else ({ s1 with pulseUp := true }, [])
  else (s, [])

/-- Sweep section of LEDManager::updateInitAnimation (LEDManager.cpp):
every ANIMATION_INTERVAL ms draws the cursor pixel and advances it with a
bounce at the far end; on reaching the near end on the way back, blanks
the strip and arms the hand-off fade. -/
def initSweepStep (s : LEDState) (now : Nat) : LEDState × List ShowCall :=
  if s.inited = false ∧ now - s.previousMillis ≥ ANIMATION_INTERVAL then
    let s1 := { s with previousMillis := now }
    let s2 := resetAllLEDs s1
    let s3 := { s2 with pixels := .cursorOn s2.cursorLED s2.red s2.green s2.blue }
    let out1 := [stripShow s3]
    let s4 :=
      if s3.clockwise then { s3 with cursorLED := s3.cursorLED + 1 }
      else { s3 with cursorLED := s3.cursorLED - 1 }
    let s5 :=
      if s4.cursorLED ≥ NUM_LEDS then
        { s4 with clockwise := false, cursorLED := NUM_LEDS - 1 }
      else s4
    if s5.cursorLED ≤ 0 ∧ s5.clockwise = false then
      let s6 := { s5 with stripBrightness := 0 }
      let out2 := [stripShow s6]
      let s7 := fadeToBrightness s6 255 150 now
      let s8 := { s7 with inited := true, cursorLED := 0, clockwise := true }
      (s8, out1 ++ out2)
    else (s5, out1)
  else (s, ([] : List ShowCall))

/-- Final-fade section of LEDManager::updateInitAnimation
(LEDManager.cpp): once the sweep finished, keeps arming the fade toward
darkness. -/
def initFadeOut (s : LEDState) (now : Nat) : LEDState :=
  if s.inited = true ∧ s.currentBrightness ≠ 0 then fadeToBrightness s 0 3000 now
  else s

/-- Timeout section of LEDManager::updateInitAnimation (LEDManager.cpp):
past the 4-second wall clock mark, marks the init animation completed and
enables pulsation. -/
def initTimeoutCheck (s : LEDState) (now : Nat) : LEDState :=
  if now > 4000 ∧ s.initAnimationCompleted = false then
    { s with initAnimationCompleted := true, pulsating := true }
  else s

/-- LEDManager::updateInitAnimation (LEDManager.cpp): the boot sweep.
The three sections of the source run in order: the sweep step, the
hand-off fade, and the hard 4-second timeout. -/
def updateInitAnimation (s : LEDState) (now : Nat) : LEDState × List ShowCall :=
  let step := initSweepStep s now
  (initTimeoutCheck (initFadeOut step.1 now) now, step.2)

/-- The trailing idle-dim check of LEDManager::updateAnimations
(LEDManager.cpp): reached only when no animation is active; after the
idle window either arms a dim fade or enters pulsation. -/
def idleCheck (s : LEDState) (now : Nat) : LEDState × List ShowCall :=
  if now - s.lastEncMovementTime ≥ IDLE_DELAY_SECONDS * 1000 then
    if s.currentBrightness > 10 then (fadeToBrightness s 10 1000 now, [])
    else ({ s with pulsating := true }, [])
  else (s, [])

end Anim

/-- LEDManager::updateAnimations (LEDManager.cpp): the priority-ordered
animation dispatch, translated clause for clause from the early-return
if chain of the source. -/
def updateAnimations (s : LEDState) (now : Nat) : LEDState × List ShowCall :=
  if s.fading then Anim.updateFadeAnimation s now
  else if s.flash then Anim.updateFlashAnimation s now
  else if s.loading then Anim.updateLoadingAnimation s now
  else if s.initAnimationCompleted = false then Anim.updateInitAnimation s now
  else if s.pulsating then Anim.updatePulsatingAnimation s now
  else Anim.idleCheck s now

/-- The five animations of the scheduler, listed in priority order. -/
inductive LEDAnim where
  | fade
  | flash
  | loading
  | bootSweep
  | pulsate
deriving DecidableEq

/-- The highest-priority active animation of a state, following the
spec's strict order fade, then flash, then loading, then boot sweep, then
pulsation; none when no animation is active. -/
def activeAnimation (s : LEDState) : Option LEDAnim :=
  if s.fading then some .fade
  else if s.flash then some .flash
  else if s.loading then some .loading
  else if s.initAnimationCompleted = false then some .bootSweep
  else if s.pulsating then some .pulsate
  else none

/-- Advances exactly one named animation (or, when none is active, only
the idle-dim check). -/
def advanceAnimation (a : Option LEDAnim) (s : LEDState) (now : Nat) :
    LEDState × List ShowCall :=
  match a with
  | some .fade => Anim.updateFadeAnimation s now
  | some .flash => Anim.updateFlashAnimation s now
  | some .loading => Anim.updateLoadingAnimation s now
  | some .bootSweep => Anim.updateInitAnimation s now
  | some .pulsate => Anim.updatePulsatingAnimation s now
  | none => Anim.idleCheck s now

/-- One iteration of LEDManager::animationLoop at clock `now`
(LEDManager.cpp): drain the pending commands, then run the animation
state machine. -/
def ledTick (s : LEDState) (events : List LEDEvent) (now : Nat) :
    LEDState × List ShowCall :=
  let p := processLEDEvents s events now
  let u := updateAnimations p.1 now
  (u.1, p.2 ++ u.2)

end LEDState

/-- Network connection states (src/lib/network/WiFiManager.h, enum class
WiFiState). -/
inductive WiFiState where
  | disconnected
  | connecting
  | connected
  | timeout
  | apModeInit
  | apMode
  | wpsListening
  | wpsSuccess
  | wpsFailed
  | error
  | credentialNotFound
deriving DecidableEq

/-- WiFiManager state (WiFiManager.h private fields relevant to the
connection lifecycle). -/
structure WiFiMgr where
  initialized : Bool
  currentState : WiFiState
  connectionStartTime : Nat
  connectionTimeout : Nat
  wpsStarted : Bool
deriving DecidableEq

namespace WiFiMgr

/-- Default connection timeout of WiFiManager::connect, 10000 ms
(WiFiManager.h). -/
def DEFAULT_CONNECTION_TIMEOUT : Nat := 10000

/-- Modelled from the spec: the fixed gateway address the ESP32 stack
exposes while the access point is active (WiFi.softAPIP, external
hardware; documented in WiFiManager.h as the standard AP gateway
192.168.4.1). -/
def softAPGatewayIP : List Char := String.toList "192.168.4.1"

/-- WiFiManager::setState (WiFiManager.cpp): writes and logs the state
only when it actually changes.  The boolean records whether a transition
was logged. -/
def setState (w : WiFiMgr) (newState : WiFiState) : WiFiMgr × Bool :=
  if w.currentState ≠ newState then ({ w with currentState := newState }, true)
  else (w, false)

/-- WiFiManager::connect (WiFiManager.cpp): false when not initialized;
otherwise enters CONNECTING, records the attempt start clock and the
requested timeout, and hands the attempt to the hardware stack.  The ssid
and password go to WiFi.begin, which is external hardware. -/
def connect (w : WiFiMgr) (ssid password : List Char) (timeout : Nat) (now : Nat) :
    Bool × WiFiMgr :=
  if w.initialized = false then (false, w)
  else
    let w1 := (setState w .connecting).1
    (true, { w1 with connectionStartTime := now, connectionTimeout := timeout })

/-- WiFiManager::handleConnectionTimeout (WiFiManager.cpp): forces the
TIMEOUT state once the elapsed connection time strictly exceeds the
configured timeout. -/
def handleConnectionTimeout (w : WiFiMgr) (now : Nat) : WiFiMgr :=
  if now - w.connectionStartTime > w.connectionTimeout then (setState w .timeout).1
  else w

/-- WiFiManager::update (WiFiManager.cpp): the periodic coordinator
check; only monitors the timeout while in CONNECTING. -/
def update (w : WiFiMgr) (now : Nat) : WiFiMgr :=
  if w.initialized = false then w
  else if w.currentState = .connecting then handleConnectionTimeout w now
  else w

/-- WiFiManager::setupAP (WiFiManager.cpp): enters AP_MODE_INIT, asks the
hardware stack to start the access point (`apStarted` is the stack's
answer), then enters AP_MODE on success or ERROR on failure. -/
def setupAP (w : WiFiMgr) (apStarted : Bool) : WiFiMgr :=
  let w1 := (setState w .apModeInit).1
  if apStarted then (setState w1 .apMode).1
  else (setState w1 .error).1

/-- WiFiManager::getLocalIP (WiFiManager.cpp): the station address when
connected (external, `stationIP`), the AP gateway address in AP mode, and
the empty string otherwise. -/
def getLocalIP (w : WiFiMgr) (stationIP : List Char) : List Char :=
  if w.currentState = .connected then stationIP
  else if w.currentState = .apMode then softAPGatewayIP
  else []

end WiFiMgr

/-- System lifecycle states (src/lib/core/Core.h, enum class
SystemState). -/
inductive SystemState where
  | booting
  | initializing
  | wifiConnecting
  | wifiConnected
  | wifiApMode
  | wifiError
  | ready
  | running
  | error
deriving DecidableEq

/-- The System Coordinator's state pair (Core.h): the current lifecycle
state and the millis() timestamp of its entry. -/
structure CoreState where
  currentState : SystemState
  stateStartTime : Nat
deriving DecidableEq

namespace CoreState

/-- Core::setState (Core.cpp): on an actual change, logs the transition,
writes the new state and stamps the entry time; on a repeated state, does
nothing.  The boolean records whether a transition was logged. -/
def setState (c : CoreState) (state : SystemState) (now : Nat) : CoreState × Bool :=
  if c.currentState ≠ state then
    ({ currentState := state, stateStartTime := now }, true)
  else (c, false)

end CoreState

/-- A sample event used for concrete evaluations. -/
def sampleEvent : Event :=
  { type := 0, value := 0, stringData := [] }

/-- An initialized bus whose UI-to-Core queue is full. -/
def fullBus : EventBus :=
  { initialized := true
    uiToMainQueue := List.replicate EventBus.QUEUE_SIZE sampleEvent
    mainToUIQueue := [] }

/-- A bus before EventBus::initialize succeeded. -/
def uninitBus : EventBus :=
  { initialized := false, uiToMainQueue := [], mainToUIQueue := [] }

/-- The SET_LOADING command with state true. -/
def loadingOnEvent : LEDEvent :=
  { type := .setLoading, r := 0, g := 0, b := 0, brightness := 0, duration := 0, state := true }

/-- An LED state in the middle of a 200 ms flash started at 1000 ms. -/
def sampleFlashState : LEDState :=
  { LEDState.init with
      flash := true
      pulsating := false
      flashDuration := 200
      lastFlashStarted := 1000
      currentBrightness := 255
      stripBrightness := 255 }

/-- An initialized WiFi manager at its defaults, before any attempt. -/
def sampleWiFiMgr : WiFiMgr :=
  { initialized := true
    currentState := .disconnected
    connectionStartTime := 0
    connectionTimeout := WiFiMgr.DEFAULT_CONNECTION_TIMEOUT
    wpsStarted := false }

end CloudMouse

namespace CloudMouse

/-- Sending on the UI-to-Core channel never grows it beyond capacity. -/
theorem sendToMain_queue_le (b : EventBus) (x : Event)
    (h : b.uiToMainQueue.length ≤ EventBus.QUEUE_SIZE) :
    ((EventBus.sendToMain b x 0).2).uiToMainQueue.length ≤ EventBus.QUEUE_SIZE := by
  unfold EventBus.sendToMain EventBus.xQueueSend
  by_cases hb : b.initialized = false
  · simpa [hb] using h
  · by_cases hq : b.uiToMainQueue.length < EventBus.QUEUE_SIZE
    · simp [hb, hq]
      omega
    · simpa [hb, hq] using h

/-- C1: for every sequence of sends on an initialized channel the queue
never holds more than QUEUE_SIZE = 10 events, and a send to a full
channel with timeout 0 returns false and leaves the queue (and the whole
bus) unchanged. -/
theorem eventbus_capacity (es : List Event) (bus : EventBus) (e : Event)
    (hlen : bus.uiToMainQueue.length ≤ EventBus.QUEUE_SIZE) :
    ((es.foldl (fun b x => (EventBus.sendToMain b x 0).2) bus).uiToMainQueue.length
        ≤ EventBus.QUEUE_SIZE) ∧
    (bus.initialized = true → bus.uiToMainQueue.length = EventBus.QUEUE_SIZE →
      EventBus.sendToMain bus e 0 = (false, bus)) := by
  constructor
  · induction es generalizing bus with
    | nil => exact hlen
    | cons x xs ih =>
      exact ih ((EventBus.sendToMain bus x 0).2) (sendToMain_queue_le bus x hlen)
  · intro hinit hfull
    obtain ⟨bi, bu, bm⟩ := bus
    simp only at hinit hfull
    subst hinit
    unfold EventBus.sendToMain EventBus.xQueueSend
    simp [hfull]

/-- Witness for C1 at a concrete full bus. -/
theorem eventbus_capacity_witness :
    fullBus.uiToMainQueue.length ≤ EventBus.QUEUE_SIZE ∧
    (((List.replicate 3 sampleEvent).foldl
        (fun b x => (EventBus.sendToMain b x 0).2) fullBus).uiToMainQueue.length
      ≤ EventBus.QUEUE_SIZE) ∧
    EventBus.sendToMain fullBus sampleEvent 0 = (false, fullBus) :=
  ⟨by decide,
   (eventbus_capacity (List.replicate 3 sampleEvent) fullBus sampleEvent (by decide)).1,
   (eventbus_capacity [] fullBus sampleEvent (by decide)).2 (by decide) (by decide)⟩

/-- C2: every send and receive reports its outcome as a boolean (the
some/none discriminator on the receive side): false on an uninitialized
bus, on a full target queue (send) and on an empty source queue
(receive), and in each such case the bus state is returned unchanged. -/
theorem eventbus_error_outcomes (bus : EventBus) (e : Event) (timeout : Nat) :
    (bus.initialized = false →
      EventBus.sendToMain bus e timeout = (false, bus) ∧
      EventBus.sendToUI bus e timeout = (false, bus) ∧
      EventBus.receiveFromUI bus timeout = (none, bus) ∧
      EventBus.receiveFromMain bus timeout = (none, bus)) ∧
    (bus.uiToMainQueue.length = EventBus.QUEUE_SIZE →
      EventBus.sendToMain bus e timeout = (false, bus)) ∧
    (bus.mainToUIQueue.length = EventBus.QUEUE_SIZE →
      EventBus.sendToUI bus e timeout = (false, bus)) ∧
    (bus.uiToMainQueue = [] → EventBus.receiveFromUI bus timeout = (none, bus)) ∧
    (bus.mainToUIQueue = [] → EventBus.receiveFromMain bus timeout = (none, bus)) := by
  refine ⟨?_, ?_, ?_, ?_, ?_⟩
  · intro h
    simp [EventBus.sendToMain, EventBus.sendToUI, EventBus.receiveFromUI,
      EventBus.receiveFromMain, h]
  · intro h
    obtain ⟨bi, bu, bm⟩ := bus
    simp only at h
    cases bi with
    | false => simp [EventBus.sendToMain]
    | true => simp [EventBus.sendToMain, EventBus.xQueueSend, h]
  · intro h
    obtain ⟨bi, bu, bm⟩ := bus
    simp only at h
    cases bi with
    | false => simp [EventBus.sendToUI]
    | true => simp [EventBus.sendToUI, EventBus.xQueueSend, h]
  · intro h
    obtain ⟨bi, bu, bm⟩ := bus
    simp only at h
    subst h
    cases bi with
    | false => simp [EventBus.receiveFromUI]
    | true => simp [EventBus.receiveFromUI, EventBus.xQueueReceive]
  · intro h
    obtain ⟨bi, bu, bm⟩ := bus
    simp only at h
    subst h
    cases bi with
    | false => simp [EventBus.receiveFromMain]
    | true => simp [EventBus.receiveFromMain, EventBus.xQueueReceive]

/-- Witness for C2 at a concrete uninitialized bus and a concrete full
and main-empty initialized bus. -/
theorem eventbus_error_outcomes_witness :
    uninitBus.initialized = false ∧
    EventBus.sendToMain uninitBus sampleEvent 7 = (false, uninitBus) ∧
    fullBus.uiToMainQueue.length = EventBus.QUEUE_SIZE ∧
    EventBus.sendToMain fullBus sampleEvent 0 = (false, fullBus) ∧
    fullBus.mainToUIQueue = [] ∧
    EventBus.receiveFromMain fullBus 0 = (none, fullBus) :=
  ⟨by decide,
   ((eventbus_error_outcomes uninitBus sampleEvent 7).1 (by decide)).1,
   by decide,
   (eventbus_error_outcomes fullBus sampleEvent 0).2.1 (by decide),
   by decide,
   (eventbus_error_outcomes fullBus sampleEvent 0).2.2.2.2 (by decide)⟩

/-- C7: a connect attempt enters CONNECTING and records its start time;
once the elapsed time exceeds the configured 10000 ms default timeout
with no success callback, the next update forces TIMEOUT; a subsequent
setupAP whose access point starts yields AP_MODE, where the manager's
address is the fixed AP gateway 192.168.4.1. -/
theorem wifi_timeout_then_ap (w : WiFiMgr) (ssid password : List Char) (t0 t1 : Nat)
    (hinit : w.initialized = true)
    (ht : t1 - t0 > WiFiMgr.DEFAULT_CONNECTION_TIMEOUT) :
    (WiFiMgr.connect w ssid password WiFiMgr.DEFAULT_CONNECTION_TIMEOUT t0).1 = true ∧
    (WiFiMgr.connect w ssid password WiFiMgr.DEFAULT_CONNECTION_TIMEOUT t0).2.currentState
      = .connecting ∧
    (WiFiMgr.connect w ssid password
        WiFiMgr.DEFAULT_CONNECTION_TIMEOUT t0).2.connectionStartTime = t0 ∧
    (WiFiMgr.update
        (WiFiMgr.connect w ssid password WiFiMgr.DEFAULT_CONNECTION_TIMEOUT t0).2
        t1).currentState = .timeout ∧
    (WiFiMgr.setupAP
        (WiFiMgr.update
          (WiFiMgr.connect w ssid password WiFiMgr.DEFAULT_CONNECTION_TIMEOUT t0).2 t1)
        true).currentState = .apMode ∧
    WiFiMgr.getLocalIP
        (WiFiMgr.setupAP
          (WiFiMgr.update
            (WiFiMgr.connect w ssid password WiFiMgr.DEFAULT_CONNECTION_TIMEOUT t0).2 t1)
          true) [] = WiFiMgr.softAPGatewayIP ∧
    WiFiMgr.softAPGatewayIP ≠ [] := by
  have hc : (WiFiMgr.connect w ssid password WiFiMgr.DEFAULT_CONNECTION_TIMEOUT t0)
      = (true,
         { w with currentState := .connecting
                  connectionStartTime := t0
                  connectionTimeout := WiFiMgr.DEFAULT_CONNECTION_TIMEOUT }) := by
    unfold WiFiMgr.connect WiFiMgr.setState
    by_cases hcs : w.currentState = .connecting
    · simp [hinit, hcs]
    · simp [hinit, hcs]
  rw [hc]
  have hu : WiFiMgr.update
      { w with currentState := .connecting
               connectionStartTime := t0
               connectionTimeout := WiFiMgr.DEFAULT_CONNECTION_TIMEOUT } t1
      = { w with currentState := .timeout
                 connectionStartTime := t0
                 connectionTimeout := WiFiMgr.DEFAULT_CONNECTION_TIMEOUT } := by
    unfold WiFiMgr.update WiFiMgr.handleConnectionTimeout WiFiMgr.setState
    simp [hinit, ht]
  rw [hu]
  refine ⟨rfl, rfl, rfl, rfl, ?_, ?_, by decide⟩
  · unfold WiFiMgr.setupAP WiFiMgr.setState
    simp
  · unfold WiFiMgr.setupAP WiFiMgr.setState WiFiMgr.getLocalIP
    simp

/-- Witness for C7 on a fresh initialized manager, connecting at time 0
and updating at time 10001. -/
theorem wifi_timeout_then_ap_witness :
    sampleWiFiMgr.initialized = true ∧
    10001 - 0 > WiFiMgr.DEFAULT_CONNECTION_TIMEOUT ∧
    (WiFiMgr.update
        (WiFiMgr.connect sampleWiFiMgr [] [] WiFiMgr.DEFAULT_CONNECTION_TIMEOUT 0).2
        10001).currentState = .timeout ∧
    (WiFiMgr.setupAP
        (WiFiMgr.update
          (WiFiMgr.connect sampleWiFiMgr [] [] WiFiMgr.DEFAULT_CONNECTION_TIMEOUT 0).2
          10001)
        true).currentState = .apMode :=
  ⟨by decide, by decide,
   (wifi_timeout_then_ap sampleWiFiMgr [] [] 0 10001 (by decide) (by decide)).2.2.2.1,
   (wifi_timeout_then_ap sampleWiFiMgr [] [] 0 10001
      (by decide) (by decide)).2.2.2.2.1⟩

/-- C8: delivering the same state twice in a row is idempotent for both
Core::setState and WiFiManager::setState: the state record (its entry
timestamp included) is returned unchanged and no transition is logged. -/
theorem setState_idempotent (c : CoreState) (s : SystemState) (now : Nat)
    (w : WiFiMgr) (ws : WiFiState) :
    (c.currentState = s → CoreState.setState c s now = (c, false)) ∧
    (w.currentState = ws → WiFiMgr.setState w ws = (w, false)) := by
  constructor
  · intro h
    simp [CoreState.setState, h]
  · intro h
    simp [WiFiMgr.setState, h]

/-- A buffer without a pipe has no pipe index. -/
theorem indexOfPipe_eq_none (l : List Char) (h : '|' ∉ l) :
    Event.indexOfPipe l = none := by
  induction l with
  | nil => rfl
  | cons c rest ih =>
    have hc : ¬c = '|' := fun hc => h (hc ▸ List.mem_cons_self c rest)
    have hr : '|' ∉ rest := fun hr => h (List.mem_cons_of_mem c hr)
    simp [Event.indexOfPipe, hc, ih hr]

/-- Appending a pipe after a pipe-free buffer puts the first pipe exactly
at the end of that buffer. -/
theorem indexOfPipe_append_pipe (l1 l2 : List Char) (h : '|' ∉ l1) :
    Event.indexOfPipe (l1 ++ '|' :: l2) = some l1.length := by
  induction l1 with
  | nil => simp [Event.indexOfPipe]
  | cons c rest ih =>
    have hc : ¬c = '|' := fun hc => h (hc ▸ List.mem_cons_self c rest)
    have hr : '|' ∉ rest := fun hr => h (List.mem_cons_of_mem c hr)
    simp [Event.indexOfPipe, hc, ih hr]

/-- The first pipe of a buffer stays the first pipe of any extension. -/
theorem indexOfPipe_append_of_some (l1 l2 : List Char) (i : Nat)
    (h : Event.indexOfPipe l1 = some i) :
    Event.indexOfPipe (l1 ++ l2) = some i := by
  induction l1 generalizing i with
  | nil => simp [Event.indexOfPipe] at h
  | cons c rest ih =>
    by_cases hc : c = '|'
    · simp [Event.indexOfPipe, hc] at h ⊢
      omega
    · simp [Event.indexOfPipe, hc] at h ⊢
      obtain ⟨j, hj, rfl⟩ := h
      exact ⟨j, ih j hj, rfl⟩

/-- The first pipe index lies inside the buffer. -/
theorem indexOfPipe_lt_length (l : List Char) (i : Nat)
    (h : Event.indexOfPipe l = some i) : i < l.length := by
  induction l generalizing i with
  | nil => simp [Event.indexOfPipe] at h
  | cons c rest ih =>
    by_cases hc : c = '|'
    · simp [Event.indexOfPipe, hc] at h
      simp
      omega
    · simp [Event.indexOfPipe, hc] at h
      obtain ⟨j, hj, rfl⟩ := h
      have := ih j hj
      simp
      omega

/-- C10: when the ssid holds no pipe and "ssid|ip" fits in the 256-byte
buffer, setWiFiData then getSSID, getIP and getConnectionTime return the
ssid, the ip and the time unchanged; when the ssid holds a pipe, getSSID
returns only the prefix before its first pipe. -/
theorem event_wifi_roundtrip (ev : Event) (ssid ip : List Char) (t : Int)
    (hfit : ssid.length + 1 + ip.length ≤ 255) :
    ('|' ∉ ssid →
      (ev.setWiFiData ssid ip t).getSSID = ssid ∧
      (ev.setWiFiData ssid ip t).getIP = ip ∧
      (ev.setWiFiData ssid ip t).getConnectionTime = t) ∧
    (∀ i, Event.indexOfPipe ssid = some i →
      (ev.setWiFiData ssid ip t).getSSID = ssid.take i) := by
  have hlen : (ssid ++ '|' :: ip).length ≤ 255 := by
    simp
    omega
  have hdata : (ev.setWiFiData ssid ip t).stringData = ssid ++ '|' :: ip := by
    simp [Event.setWiFiData, List.take_of_length_le hlen]
  constructor
  · intro hnp
    have hidx : Event.indexOfPipe (ssid ++ '|' :: ip) = some ssid.length :=
      indexOfPipe_append_pipe ssid ip hnp
    refine ⟨?_, ?_, rfl⟩
    · simp [Event.getSSID, hdata, hidx, List.take_left]
    · unfold Event.getIP
      rw [hdata, hidx]
      have hd : ((ssid ++ ['|']) ++ ip).drop (ssid ++ ['|']).length = ip :=
        List.drop_left (ssid ++ ['|']) ip
      simpa using hd
  · intro i hi
    have hidx : Event.indexOfPipe (ssid ++ '|' :: ip) = some i :=
      indexOfPipe_append_of_some ssid ('|' :: ip) i hi
    have hlt : i < ssid.length := indexOfPipe_lt_length ssid i hi
    unfold Event.getSSID
    rw [hdata, hidx]
    exact List.take_append_of_le_length (Nat.le_of_lt hlt)

/-- Witness for C10 at a concrete ssid and ip, and a concrete
pipe-holding ssid. -/
theorem event_wifi_roundtrip_witness :
    (['N','e','t'].length + 1 + ['1','.','2'].length ≤ 255 ∧
      (sampleEvent.setWiFiData ['N','e','t'] ['1','.','2'] 42).getSSID = ['N','e','t'] ∧
      (sampleEvent.setWiFiData ['N','e','t'] ['1','.','2'] 42).getIP = ['1','.','2'] ∧
      (sampleEvent.setWiFiData ['N','e','t'] ['1','.','2'] 42).getConnectionTime = 42) ∧
    ((sampleEvent.setWiFiData ['a','|','b'] ['9'] 5).getSSID = ['a','|','b'].take 1) :=
  ⟨⟨by decide,
    ((event_wifi_roundtrip sampleEvent ['N','e','t'] ['1','.','2'] 42
        (by decide)).1 (by decide)).1,
    ((event_wifi_roundtrip sampleEvent ['N','e','t'] ['1','.','2'] 42
        (by decide)).1 (by decide)).2.1,
    ((event_wifi_roundtrip sampleEvent ['N','e','t'] ['1','.','2'] 42
        (by decide)).1 (by decide)).2.2⟩,
   (event_wifi_roundtrip sampleEvent ['a','|','b'] ['9'] 5 (by decide)).2 1 (by decide)⟩

/-- The press-detection section never touches the rotation accumulator. -/
theorem pressDetect_movement (s : EncoderState) (cur : Bool) (t : Nat) :
    (EncoderState.pressDetect s cur t).movement = s.movement ∧
    (EncoderState.pressDetect s cur t).movementPending = s.movementPending := by
  unfold EncoderState.pressDetect
  split_ifs <;> simp

/-- The release-classification section never touches the rotation
accumulator. -/
theorem classifyRelease_movement (s : EncoderState) (cur : Bool) (t : Nat) :
    (EncoderState.classifyRelease s cur t).movement = s.movement ∧
    (EncoderState.classifyRelease s cur t).movementPending = s.movementPending := by
  unfold EncoderState.classifyRelease
  dsimp only
  split_ifs <;> simp

/-- The ongoing-press section never touches the rotation accumulator. -/
theorem ongoingPress_movement (s : EncoderState) (cur : Bool) (t : Nat) :
    (EncoderState.ongoingPress s cur t).movement = s.movement ∧
    (EncoderState.ongoingPress s cur t).movementPending = s.movementPending := by
  unfold EncoderState.ongoingPress
  dsimp only
  split_ifs <;> simp

/-- processButton never touches the rotation accumulator or its pending
flag. -/
theorem processButton_movement (s : EncoderState) (cur : Bool) (t : Nat) :
    (s.processButton cur t).movement = s.movement ∧
    (s.processButton cur t).movementPending = s.movementPending := by
  unfold EncoderState.processButton
  constructor
  · show (EncoderState.ongoingPress
        (EncoderState.classifyRelease (EncoderState.pressDetect s cur t) cur t)
        cur t).movement = s.movement
    rw [(ongoingPress_movement _ cur t).1, (classifyRelease_movement _ cur t).1,
      (pressDetect_movement s cur t).1]
  · show (EncoderState.ongoingPress
        (EncoderState.classifyRelease (EncoderState.pressDetect s cur t) cur t)
        cur t).movementPending = s.movementPending
    rw [(ongoingPress_movement _ cur t).2, (classifyRelease_movement _ cur t).2,
      (pressDetect_movement s cur t).2]

/-- processEncoder keeps the invariant that a non-zero accumulated
movement is flagged pending. -/
theorem processEncoder_pending (s : EncoderState) (pos : Int)
    (h : s.movement ≠ 0 → s.movementPending = true) :
    (s.processEncoder pos).movement ≠ 0 → (s.processEncoder pos).movementPending = true := by
  unfold EncoderState.processEncoder
  dsimp only
  split_ifs with hne
  · intro _
    rfl
  · exact h

/-- Any encoder step keeps the invariant that a non-zero accumulated
movement is flagged pending. -/
theorem encoderStep_movement_inv (s : EncoderState) (op : EncoderOp)
    (h : s.movement ≠ 0 → s.movementPending = true) :
    (encoderStep s op).movement ≠ 0 → (encoderStep s op).movementPending = true := by
  cases op with
  | tick pos cur t =>
    show (s.update pos cur t).movement ≠ 0 → (s.update pos cur t).movementPending = true
    unfold EncoderState.update
    intro hmv
    rw [(processButton_movement (s.processEncoder pos) cur t).2]
    apply processEncoder_pending s pos h
    rw [(processButton_movement (s.processEncoder pos) cur t).1] at hmv
    exact hmv
  | consumeMovement =>
    show ((s.getMovement).2).movement ≠ 0 → ((s.getMovement).2).movementPending = true
    unfold EncoderState.getMovement
    split_ifs with hp
    · intro hm
      simp at hm
    · exact h
  | consumeClick =>
    show ((s.getClicked).2).movement ≠ 0 → ((s.getClicked).2).movementPending = true
    unfold EncoderState.getClicked
    split_ifs with hp
    · intro hm
      have hs : s.movement ≠ 0 := by simpa using hm
      simpa using h hs
    · exact h
  | consumeLongPress =>
    show ((s.getLongPressed).2).movement ≠ 0 → ((s.getLongPressed).2).movementPending = true
    unfold EncoderState.getLongPressed
    split_ifs with hp
    · intro hm
      have hs : s.movement ≠ 0 := by simpa using hm
      simpa using h hs
    · exact h
  | consumeUltraLongPress =>
    show ((s.getUltraLongPressed).2).movement ≠ 0 →
        ((s.getUltraLongPressed).2).movementPending = true
    unfold EncoderState.getUltraLongPressed
    split_ifs with hp
    · intro hm
      have hs : s.movement ≠ 0 := by simpa using hm
      simpa using h hs
    · exact h

/-- The pending-movement invariant holds along every trace from init. -/
theorem encoderRun_movement_inv (pos0 : Int) (level0 : Bool) (ops : List EncoderOp) :
    (encoderRun pos0 level0 ops).movement ≠ 0 →
    (encoderRun pos0 level0 ops).movementPending = true := by
  unfold encoderRun
  generalize hs : EncoderState.init pos0 level0 = s0
  have hbase : s0.movement ≠ 0 → s0.movementPending = true := by
    intro hm
    exfalso
    apply hm
    rw [← hs]
    rfl
  clear hs
  induction ops generalizing s0 with
  | nil => exact hbase
  | cons op rest ih =>
    exact ih (encoderStep s0 op) (encoderStep_movement_inv s0 op hbase)

/-- C3: along any trace from init that leaves a non-zero accumulated
rotation delta, getMovement returns that non-zero accumulated value and
zeroes the accumulator, and an immediately repeated getMovement returns
zero. -/
theorem consume_movement_once (pos0 : Int) (level0 : Bool) (ops : List EncoderOp)
    (h : (encoderRun pos0 level0 ops).movement ≠ 0) :
    ((encoderRun pos0 level0 ops).getMovement).1 = (encoderRun pos0 level0 ops).movement ∧
    ((encoderRun pos0 level0 ops).getMovement).1 ≠ 0 ∧
    (((encoderRun pos0 level0 ops).getMovement).2.getMovement).1 = 0 ∧
    ((encoderRun pos0 level0 ops).getMovement).2.movement = 0 := by
  have hp : (encoderRun pos0 level0 ops).movementPending = true :=
    encoderRun_movement_inv pos0 level0 ops h
  unfold EncoderState.getMovement
  simp [hp]
  exact h

/-- Witness for C3: one clockwise detent accumulated, consumed once. -/
theorem consume_movement_once_witness :
    (encoderRun 0 true [EncoderOp.tick 4 true 10]).movement ≠ 0 ∧
    ((encoderRun 0 true [EncoderOp.tick 4 true 10]).getMovement).1
      = (encoderRun 0 true [EncoderOp.tick 4 true 10]).movement ∧
    ((encoderRun 0 true [EncoderOp.tick 4 true 10]).getMovement).1 ≠ 0 ∧
    (((encoderRun 0 true [EncoderOp.tick 4 true 10]).getMovement).2.getMovement).1 = 0 ∧
    ((encoderRun 0 true [EncoderOp.tick 4 true 10]).getMovement).2.movement = 0 :=
  ⟨by decide,
   consume_movement_once 0 true [EncoderOp.tick 4 true 10] (by decide)⟩

/-- On a release tick the press-detection section is inert. -/
theorem pressDetect_on_release (s : EncoderState) (t : Nat) :
    EncoderState.pressDetect s true t = s := by
  unfold EncoderState.pressDetect
  simp

/-- On a release tick the ongoing-press section leaves every pending
flag unchanged. -/
theorem ongoingPress_on_release_pendings (s : EncoderState) (t : Nat) :
    (EncoderState.ongoingPress s true t).clickPending = s.clickPending ∧
    (EncoderState.ongoingPress s true t).longPressPending = s.longPressPending ∧
    (EncoderState.ongoingPress s true t).ultraLongPressPending = s.ultraLongPressPending := by
  unfold EncoderState.ongoingPress
  split_ifs <;> simp_all

/-- On a release tick the pending flags of processButton are exactly
those computed by the release-classification section. -/
theorem processButton_release_pendings (s : EncoderState) (t : Nat) :
    (s.processButton true t).clickPending
      = (EncoderState.classifyRelease s true t).clickPending ∧
    (s.processButton true t).longPressPending
      = (EncoderState.classifyRelease s true t).longPressPending ∧
    (s.processButton true t).ultraLongPressPending
      = (EncoderState.classifyRelease s true t).ultraLongPressPending := by
  unfold EncoderState.processButton
  rw [pressDetect_on_release]
  refine ⟨?_, ?_, ?_⟩
  · simpa using (ongoingPress_on_release_pendings (EncoderState.classifyRelease s true t) t).1
  · simpa using (ongoingPress_on_release_pendings (EncoderState.classifyRelease s true t) t).2.1
  · simpa using (ongoingPress_on_release_pendings (EncoderState.classifyRelease s true t) t).2.2

/-- C4: a completed press of measured duration d is classified on the
release tick: d < 500 ms sets the click flag; 1000 ms ≤ d < 3000 ms sets
the long-press flag; d ≥ 3000 ms sets the ultra-long-press flag unless it
was already notified during the hold; 500 ms ≤ d < 1000 ms sets no flag
at all. -/
theorem press_release_classification (s : EncoderState) (t : Nat)
    (hheld : s.lastButtonState = false) :
    (t - s.pressStartTime < 500 →
      (s.processButton true t).clickPending = true ∧
      (s.processButton true t).longPressPending = s.longPressPending ∧
      (s.processButton true t).ultraLongPressPending = s.ultraLongPressPending) ∧
    (500 ≤ t - s.pressStartTime → t - s.pressStartTime < 1000 →
      (s.processButton true t).clickPending = s.clickPending ∧
      (s.processButton true t).longPressPending = s.longPressPending ∧
      (s.processButton true t).ultraLongPressPending = s.ultraLongPressPending) ∧
    (1000 ≤ t - s.pressStartTime → t - s.pressStartTime < 3000 →
      (s.processButton true t).longPressPending = true ∧
      (s.processButton true t).clickPending = s.clickPending ∧
      (s.processButton true t).ultraLongPressPending = s.ultraLongPressPending) ∧
    (3000 ≤ t - s.pressStartTime →
      (s.ultraLongPressNotified = false →
        (s.processButton true t).ultraLongPressPending = true) ∧
      (s.ultraLongPressNotified = true →
        (s.processButton true t).ultraLongPressPending = s.ultraLongPressPending) ∧
      (s.processButton true t).clickPending = s.clickPending ∧
      (s.processButton true t).longPressPending = s.longPressPending) := by
  obtain ⟨hck, hlp, hup⟩ := processButton_release_pendings s t
  rw [hck, hlp, hup]
  unfold EncoderState.classifyRelease
  rw [hheld]
  simp only [ULTRA_LONG_PRESS_DURATION, LONG_PRESS_DURATION, CLICK_TIMEOUT]
  refine ⟨?_, ?_, ?_, ?_⟩
  · intro hd
    have h3 : ¬3000 ≤ t - s.pressStartTime := by omega
    have h1 : ¬1000 ≤ t - s.pressStartTime := by omega
    simp [h3, h1, hd]
  · intro hd5 hd10
    have h3 : ¬3000 ≤ t - s.pressStartTime := by omega
    have h1 : ¬1000 ≤ t - s.pressStartTime := by omega
    have h5 : ¬t - s.pressStartTime < 500 := by omega
    simp [h3, h1, h5]
  · intro hd10 hd30
    have h3 : ¬3000 ≤ t - s.pressStartTime := by omega
    simp [h3, hd10]
  · intro hd30
    refine ⟨?_, ?_, ?_, ?_⟩
    · intro hn
      simp [hd30, hn]
    · intro hn
      simp [hd30, hn]
    · simp only [hd30]
      simp
      split_ifs <;> simp
    · simp only [hd30]
      simp
      split_ifs <;> simp

/-- Witness for C4 on concrete release ticks at durations 499, 600, 1500
and 3000 ms out of a held state with cleared flags. -/
theorem press_release_classification_witness :
    ((EncoderState.init 0 false).processButton true 499).clickPending = true ∧
    (((EncoderState.init 0 false).processButton true 600).clickPending
        = (EncoderState.init 0 false).clickPending ∧
      ((EncoderState.init 0 false).processButton true 600).longPressPending
        = (EncoderState.init 0 false).longPressPending ∧
      ((EncoderState.init 0 false).processButton true 600).ultraLongPressPending
        = (EncoderState.init 0 false).ultraLongPressPending) ∧
    ((EncoderState.init 0 false).processButton true 1500).longPressPending = true ∧
    ((EncoderState.init 0 false).processButton true 3000).ultraLongPressPending = true :=
  ⟨((press_release_classification (EncoderState.init 0 false) 499 (by decide)).1
      (by decide)).1,
   (press_release_classification (EncoderState.init 0 false) 600 (by decide)).2.1
      (by decide) (by decide),
   ((press_release_classification (EncoderState.init 0 false) 1500 (by decide)).2.2.1
      (by decide) (by decide)).1,
   (((press_release_classification (EncoderState.init 0 false) 3000 (by decide)).2.2.2
      (by decide)).1 (by decide))⟩

/-- A held tick on an already-notified press keeps the notified guard set
and never re-raises the pending flag, and the button stays latched
pressed. -/
theorem held_tick_notified_frame (s : EncoderState) (u : Nat)
    (hb : s.lastButtonState = false) (hn : s.ultraLongPressNotified = true) :
    (s.processButton false u).ultraLongPressNotified = true ∧
    (s.processButton false u).ultraLongPressPending = s.ultraLongPressPending ∧
    (s.processButton false u).lastButtonState = false := by
  unfold EncoderState.processButton
  have hpd : EncoderState.pressDetect s false u = s := by
    unfold EncoderState.pressDetect
    simp [hb]
  have hcr : EncoderState.classifyRelease s false u = s := by
    unfold EncoderState.classifyRelease
    simp
  rw [hpd, hcr]
  by_cases hbz : LONG_PRESS_DURATION ≤ u - s.pressStartTime ∧ s.longPressBuzzed = false
  · simp [EncoderState.ongoingPress, hbz, hn]
  · simp [EncoderState.ongoingPress, hbz, hn]

/-- Along any run of held ticks, a set notified guard stays set and a
cleared ultra-long-press pending flag stays cleared. -/
theorem held_fold_notified (ts : List Nat) (s : EncoderState)
    (hb : s.lastButtonState = false) (hn : s.ultraLongPressNotified = true)
    (hp : s.ultraLongPressPending = false) :
    (ts.foldl (fun a u => a.processButton false u) s).ultraLongPressNotified = true ∧
    (ts.foldl (fun a u => a.processButton false u) s).ultraLongPressPending = false ∧
    (ts.foldl (fun a u => a.processButton false u) s).lastButtonState = false := by
  induction ts generalizing s with
  | nil => exact ⟨hn, hp, hb⟩
  | cons u rest ih =>
    obtain ⟨h1, h2, h3⟩ := held_tick_notified_frame s u hb hn
    exact ih (s.processButton false u) h3 h1 (h2.trans hp)

/-- C5: on the first held tick whose press time reaches 3000 ms the
ultra-long-press pending flag is raised without waiting for release and
the notified guard is set; after consuming the event, no further run of
held ticks raises it again during the same press, the guard staying set
throughout. -/
theorem ultra_long_press_immediate_once (s : EncoderState) (t : Nat) (ts : List Nat)
    (hheld : s.lastButtonState = false)
    (hnot : s.ultraLongPressNotified = false)
    (hcross : 3000 ≤ t - s.pressStartTime) :
    (s.processButton false t).ultraLongPressPending = true ∧
    (s.processButton false t).ultraLongPressNotified = true ∧
    (((s.processButton false t).getUltraLongPressed).1 = true) ∧
    (ts.foldl (fun a u => a.processButton false u)
        ((s.processButton false t).getUltraLongPressed).2).ultraLongPressPending = false ∧
    (ts.foldl (fun a u => a.processButton false u)
        ((s.processButton false t).getUltraLongPressed).2).ultraLongPressNotified = true := by
  have hstep : (s.processButton false t).ultraLongPressPending = true ∧
      (s.processButton false t).ultraLongPressNotified = true ∧
      (s.processButton false t).lastButtonState = false := by
    unfold EncoderState.processButton
    have hpd : EncoderState.pressDetect s false t = s := by
      unfold EncoderState.pressDetect
      simp [hheld]
    have hcr : EncoderState.classifyRelease s false t = s := by
      unfold EncoderState.classifyRelease
      simp
    rw [hpd, hcr]
    by_cases hbz : LONG_PRESS_DURATION ≤ t - s.pressStartTime ∧ s.longPressBuzzed = false
    · simp [EncoderState.ongoingPress, hbz, hnot, ULTRA_LONG_PRESS_DURATION, hcross]
    · simp [EncoderState.ongoingPress, hbz, hnot, ULTRA_LONG_PRESS_DURATION, hcross]
  obtain ⟨hp, hn, hlb⟩ := hstep
  have hcons : ((s.processButton false t).getUltraLongPressed).1 = true ∧
      ((s.processButton false t).getUltraLongPressed).2
        = { s.processButton false t with ultraLongPressPending := false } := by
    unfold EncoderState.getUltraLongPressed
    simp [hp]
  obtain ⟨hc1, hc2⟩ := hcons
  have hlb2 : (((s.processButton false t).getUltraLongPressed).2).lastButtonState = false := by
    rw [hc2]
    simpa using hlb
  have hn2 : (((s.processButton false t).getUltraLongPressed).2).ultraLongPressNotified
      = true := by
    rw [hc2]
    simpa using hn
  have hp2 : (((s.processButton false t).getUltraLongPressed).2).ultraLongPressPending
      = false := by
    rw [hc2]
  have hfold := held_fold_notified ts ((s.processButton false t).getUltraLongPressed).2
    hlb2 hn2 hp2
  exact ⟨hp, hn, hc1, hfold.2.1, hfold.1⟩

/-- Witness for C5: a press started at 0, held tick at 3000 ms, then
consumed, then held ticks at 3100 and 3200 ms. -/
theorem ultra_long_press_immediate_once_witness :
    ((EncoderState.init 0 false).processButton false 3000).ultraLongPressPending = true ∧
    (([3100, 3200].foldl (fun a u => a.processButton false u)
        (((EncoderState.init 0 false).processButton false 3000).getUltraLongPressed).2
      ).ultraLongPressPending = false) ∧
    (([3100, 3200].foldl (fun a u => a.processButton false u)
        (((EncoderState.init 0 false).processButton false 3000).getUltraLongPressed).2
      ).ultraLongPressNotified = true) :=
  ⟨(ultra_long_press_immediate_once (EncoderState.init 0 false) 3000 [3100, 3200]
      (by decide) (by decide) (by decide)).1,
   (ultra_long_press_immediate_once (EncoderState.init 0 false) 3000 [3100, 3200]
      (by decide) (by decide) (by decide)).2.2.2.1,
   (ultra_long_press_immediate_once (EncoderState.init 0 false) 3000 [3100, 3200]
      (by decide) (by decide) (by decide)).2.2.2.2⟩

/-- Each scheduler tick advances exactly the animation selected by the
strict priority order. -/
theorem LEDState.updateAnimations_dispatch (s : LEDState) (now : Nat) :
    LEDState.updateAnimations s now = LEDState.advanceAnimation (LEDState.activeAnimation s) s now := by
  unfold LEDState.updateAnimations LEDState.advanceAnimation LEDState.activeAnimation
  by_cases h1 : s.fading <;> by_cases h2 : s.flash <;> by_cases h3 : s.loading <;>
    by_cases h4 : s.initAnimationCompleted = false <;> by_cases h5 : s.pulsating <;>
      simp [h1, h2, h3, h4, h5]

/-- Processing a SET_LOADING(true) command turns the state orange without
any show call. -/
theorem processLoadingOn (s : LEDState) (e : LEDEvent) (t0 : Nat)
    (he : e.type = .setLoading) (hs : e.state = true) :
    LEDState.processLEDEvent s e t0
      = (LEDState.setAllLEDs
          { s with loading := true
                   lastEncMovementTime := t0
                   pulsating := false
                   fading := false } 244 70 17, []) := by
  unfold LEDState.processLEDEvent
  rw [he]
  simp [hs]

/-- C6: every tick advances at most the single highest-priority active
animation in the strict order fade, flash, loading, boot sweep,
pulsation; and a loading command processed while a flash is active
performs no show, keeps the flash active, and no show occurs until the
flash duration has elapsed, at which point the shown color is the base
color, not the loading orange. -/
theorem led_flash_masks_loading (s : LEDState) (e : LEDEvent) (t0 t1 : Nat)
    (hfl : s.flash = true) (hfd : s.fading = false)
    (he : e.type = .setLoading) (hs : e.state = true) :
    (∀ (s' : LEDState) (n : Nat),
      LEDState.updateAnimations s' n = LEDState.advanceAnimation (LEDState.activeAnimation s') s' n) ∧
    (LEDState.processLEDEvent s e t0).2 = [] ∧
    (LEDState.processLEDEvent s e t0).1.flash = true ∧
    (LEDState.processLEDEvent s e t0).1.loading = true ∧
    (t1 - s.lastFlashStarted < s.flashDuration →
      (LEDState.updateAnimations (LEDState.processLEDEvent s e t0).1 t1).2 = []) ∧
    (t1 - s.lastFlashStarted ≥ s.flashDuration →
      (LEDState.updateAnimations (LEDState.processLEDEvent s e t0).1 t1).2
        = [{ pixels := .uniform s.baseRed s.baseGreen s.baseBlue,
             brightness := s.stripBrightness }]) := by
  have hproc := processLoadingOn s e t0 he hs
  have hupd : LEDState.updateAnimations (LEDState.processLEDEvent s e t0).1 t1
      = LEDState.Anim.updateFlashAnimation (LEDState.processLEDEvent s e t0).1 t1 := by
    rw [hproc]
    unfold LEDState.updateAnimations
    simp [LEDState.setAllLEDs, hfl]
  refine ⟨LEDState.updateAnimations_dispatch, ?_, ?_, ?_, ?_, ?_⟩
  · rw [hproc]
  · rw [hproc]
    simp [LEDState.setAllLEDs, hfl]
  · rw [hproc]
    simp [LEDState.setAllLEDs]
  · intro hlt
    rw [hupd, hproc]
    unfold LEDState.Anim.updateFlashAnimation
    have hc : ¬s.flashDuration ≤ t1 - s.lastFlashStarted := by omega
    simp [LEDState.setAllLEDs, hc]
  · intro hge
    rw [hupd, hproc]
    unfold LEDState.Anim.updateFlashAnimation
    have hc : s.flashDuration ≤ t1 - s.lastFlashStarted := hge
    simp [LEDState.setAllLEDs, LEDState.stripShow, hc]

/-- Witness for C6: a loading command arriving mid-flash at 1100 ms, with
the flash checked at 1150 ms (masked) and at 1300 ms (elapsed). -/
theorem led_flash_masks_loading_witness :
    sampleFlashState.flash = true ∧
    (LEDState.processLEDEvent sampleFlashState loadingOnEvent 1100).2 = [] ∧
    (LEDState.updateAnimations
        (LEDState.processLEDEvent sampleFlashState loadingOnEvent 1100).1 1150).2 = [] ∧
    (LEDState.updateAnimations
        (LEDState.processLEDEvent sampleFlashState loadingOnEvent 1100).1 1300).2
      = [{ pixels := .uniform sampleFlashState.baseRed sampleFlashState.baseGreen
             sampleFlashState.baseBlue,
           brightness := sampleFlashState.stripBrightness }] :=
  ⟨by decide,
   (led_flash_masks_loading sampleFlashState loadingOnEvent 1100 1150
      (by decide) (by decide) (by decide) (by decide)).2.1,
   (led_flash_masks_loading sampleFlashState loadingOnEvent 1100 1150
      (by decide) (by decide) (by decide) (by decide)).2.2.2.2.1 (by decide),
   (led_flash_masks_loading sampleFlashState loadingOnEvent 1100 1300
      (by decide) (by decide) (by decide) (by decide)).2.2.2.2.2 (by decide)⟩

/-- Arming a fade never changes the init-completed marker. -/
theorem fadeToBrightness_initCompleted (s : LEDState) (b : Int) (d now : Nat) :
    (LEDState.fadeToBrightness s b d now).initAnimationCompleted
      = s.initAnimationCompleted := by
  unfold LEDState.fadeToBrightness
  dsimp only
  split_ifs <;> simp

/-- Processing a single LED command never changes the init-completed
marker. -/
theorem processLEDEvent_initCompleted (s : LEDState) (e : LEDEvent) (now : Nat) :
    ((LEDState.processLEDEvent s e now).1).initAnimationCompleted
      = s.initAnimationCompleted := by
  unfold LEDState.processLEDEvent LEDState.setAllLEDs
  cases e.type <;> split_ifs <;> simp [fadeToBrightness_initCompleted]

/-- Draining any run of LED commands never changes the init-completed
marker. -/
theorem processLEDEvents_initCompleted (evs : List LEDEvent)
    (p : LEDState × List ShowCall) (now : Nat) :
    ((evs.foldl
        (fun acc e =>
          let r := LEDState.processLEDEvent acc.1 e now
          (r.1, acc.2 ++ r.2)) p).1).initAnimationCompleted
      = p.1.initAnimationCompleted := by
  induction evs generalizing p with
  | nil => rfl
  | cons e rest ih =>
    exact (ih _).trans (processLEDEvent_initCompleted p.1 e now)

/-- The non-boot animations never change the init-completed marker. -/
theorem anims_initCompleted (s : LEDState) (now : Nat) :
    ((LEDState.Anim.updateFadeAnimation s now).1).initAnimationCompleted
        = s.initAnimationCompleted ∧
    ((LEDState.Anim.updateFlashAnimation s now).1).initAnimationCompleted
        = s.initAnimationCompleted ∧
    ((LEDState.Anim.updateLoadingAnimation s now).1).initAnimationCompleted
        = s.initAnimationCompleted ∧
    ((LEDState.Anim.updatePulsatingAnimation s now).1).initAnimationCompleted
        = s.initAnimationCompleted ∧
    ((LEDState.Anim.idleCheck s now).1).initAnimationCompleted
        = s.initAnimationCompleted := by
  refine ⟨?_, ?_, ?_, ?_, ?_⟩
  · unfold LEDState.Anim.updateFadeAnimation LEDState.setAllLEDs
    dsimp only
    split_ifs <;> simp
  · unfold LEDState.Anim.updateFlashAnimation LEDState.setAllLEDs
    dsimp only
    split_ifs <;> simp
  · unfold LEDState.Anim.updateLoadingAnimation
    dsimp only
    split_ifs <;> simp [fadeToBrightness_initCompleted]
  · unfold LEDState.Anim.updatePulsatingAnimation
    dsimp only
    split_ifs <;> simp [fadeToBrightness_initCompleted]
  · unfold LEDState.Anim.idleCheck
    split_ifs <;> simp [fadeToBrightness_initCompleted]

/-- The sweep section never changes the init-completed marker. -/
theorem initSweepStep_initCompleted (s : LEDState) (now : Nat) :
    ((LEDState.Anim.initSweepStep s now).1).initAnimationCompleted
      = s.initAnimationCompleted := by
  unfold LEDState.Anim.initSweepStep LEDState.resetAllLEDs
  dsimp only
  split_ifs <;> simp [fadeToBrightness_initCompleted]

/-- The hand-off fade section never changes the init-completed marker. -/
theorem initFadeOut_initCompleted (s : LEDState) (now : Nat) :
    (LEDState.Anim.initFadeOut s now).initAnimationCompleted
      = s.initAnimationCompleted := by
  unfold LEDState.Anim.initFadeOut
  split_ifs <;> simp [fadeToBrightness_initCompleted]

/-- The timeout section keeps a set init-completed marker set. -/
theorem initTimeoutCheck_mono (s : LEDState) (now : Nat)
    (h : s.initAnimationCompleted = true) :
    (LEDState.Anim.initTimeoutCheck s now).initAnimationCompleted = true := by
  unfold LEDState.Anim.initTimeoutCheck
  split_ifs <;> simp_all

/-- The timeout section fires past the 4-second mark. -/
theorem initTimeoutCheck_fires (s : LEDState) (now : Nat)
    (ht : now > 4000) (hc : s.initAnimationCompleted = false) :
    (LEDState.Anim.initTimeoutCheck s now).initAnimationCompleted = true ∧
    (LEDState.Anim.initTimeoutCheck s now).pulsating = true := by
  unfold LEDState.Anim.initTimeoutCheck
  simp [ht, hc]

/-- The boot sweep keeps a set init-completed marker set. -/
theorem updateInitAnimation_mono (s : LEDState) (now : Nat)
    (h : s.initAnimationCompleted = true) :
    ((LEDState.Anim.updateInitAnimation s now).1).initAnimationCompleted = true := by
  unfold LEDState.Anim.updateInitAnimation
  dsimp only
  apply initTimeoutCheck_mono
  rw [initFadeOut_initCompleted, initSweepStep_initCompleted]
  exact h

/-- Past the 4-second mark, a call of the boot sweep marks init complete
and enables pulsation. -/
theorem updateInitAnimation_timeout (s : LEDState) (now : Nat)
    (ht : now > 4000) (hc : s.initAnimationCompleted = false) :
    ((LEDState.Anim.updateInitAnimation s now).1).initAnimationCompleted = true ∧
    ((LEDState.Anim.updateInitAnimation s now).1).pulsating = true := by
  unfold LEDState.Anim.updateInitAnimation
  dsimp only
  apply initTimeoutCheck_fires
  · exact ht
  · rw [initFadeOut_initCompleted, initSweepStep_initCompleted]
    exact hc

/-- A scheduler tick keeps a set init-completed marker set. -/
theorem updateAnimations_mono (s : LEDState) (now : Nat)
    (h : s.initAnimationCompleted = true) :
    ((LEDState.updateAnimations s now).1).initAnimationCompleted = true := by
  unfold LEDState.updateAnimations
  obtain ⟨ha, hb, hc2, hd, he2⟩ := anims_initCompleted s now
  split_ifs with h1 h2 h3 h4 h5
  · exact ha.trans h
  · exact hb.trans h
  · exact hc2.trans h
  · simp [h] at h4
  · exact hd.trans h
  · exact he2.trans h

/-- C9 (amended): past the 4-second wall-clock mark, the first scheduler
tick on which the boot sweep is the active animation (no fade, flash or
loading in progress) marks the init animation completed and enables
pulsation, even if the pixel sweep never finished; and once completed the
marker survives every further tick, so the system never re-enters the
boot animation. -/
theorem led_init_hard_timeout (s s' : LEDState) (now n2 : Nat) (evs : List LEDEvent)
    (hf : s.fading = false) (hfl : s.flash = false) (hl : s.loading = false)
    (hc : s.initAnimationCompleted = false) (ht : now > 4000)
    (hdone : s'.initAnimationCompleted = true) :
    ((LEDState.updateAnimations s now).1).initAnimationCompleted = true ∧
    ((LEDState.updateAnimations s now).1).pulsating = true ∧
    ((LEDState.ledTick s' evs n2).1).initAnimationCompleted = true := by
  have hdisp : LEDState.updateAnimations s now = LEDState.Anim.updateInitAnimation s now := by
    unfold LEDState.updateAnimations
    simp [hf, hfl, hl, hc]
  obtain ⟨h1, h2⟩ := updateInitAnimation_timeout s now ht hc
  refine ⟨hdisp ▸ h1, hdisp ▸ h2, ?_⟩
  have hp : ((LEDState.processLEDEvents s' evs n2).1).initAnimationCompleted = true := by
    unfold LEDState.processLEDEvents
    exact (processLEDEvents_initCompleted evs (s', []) n2).trans hdone
  show ((LEDState.updateAnimations
      (LEDState.processLEDEvents s' evs n2).1 n2).1).initAnimationCompleted = true
  exact updateAnimations_mono _ n2 hp

/-- Counterexample to C9 as stated: on the trace where a loading command
arrives at 100 ms, the scheduler tick at 5000 ms (past the 4-second mark)
still has the init animation not completed, because the loading and fade
animations preempt the boot sweep. -/
theorem led_init_timeout_counterexample :
    ((LEDState.ledTick
        (LEDState.ledTick LEDState.init [loadingOnEvent] 100).1
        [] 5000).1).initAnimationCompleted = false ∧
    (5000 : Nat) > 4000 := by
  constructor
  · decide
  · decide

/-- Witness for the amended C9 at the fresh boot state ticked at 4100 ms,
and monotonicity checked on a completed state. -/
theorem led_init_hard_timeout_witness :
    LEDState.init.fading = false ∧
    LEDState.init.initAnimationCompleted = false ∧
    ((LEDState.updateAnimations LEDState.init 4100).1).initAnimationCompleted = true ∧
    ((LEDState.updateAnimations LEDState.init 4100).1).pulsating = true ∧
    ((LEDState.ledTick { LEDState.init with initAnimationCompleted := true }
        [loadingOnEvent] 200).1).initAnimationCompleted = true :=
  ⟨by decide, by decide,
   (led_init_hard_timeout LEDState.init
      { LEDState.init with initAnimationCompleted := true } 4100 200 [loadingOnEvent]
      (by decide) (by decide) (by decide) (by decide) (by decide) (by decide)).1,
   (led_init_hard_timeout LEDState.init
      { LEDState.init with initAnimationCompleted := true } 4100 200 [loadingOnEvent]
      (by decide) (by decide) (by decide) (by decide) (by decide) (by decide)).2.1,
   (led_init_hard_timeout LEDState.init
      { LEDState.init with initAnimationCompleted := true } 4100 200 [loadingOnEvent]
      (by decide) (by decide) (by decide) (by decide) (by decide) (by decide)).2.2⟩

/-- Witness for C8 at concrete states. -/
theorem setState_idempotent_witness :
    (CoreState.mk .ready 1234).currentState = .ready ∧
    CoreState.setState (CoreState.mk .ready 1234) .ready 9999
      = (CoreState.mk .ready 1234, false) ∧
    sampleWiFiMgr.currentState = .disconnected ∧
    WiFiMgr.setState sampleWiFiMgr .disconnected = (sampleWiFiMgr, false) :=
  ⟨by decide,
   (setState_idempotent (CoreState.mk .ready 1234) .ready 9999
      sampleWiFiMgr .disconnected).1 (by decide),
   by decide,
   (setState_idempotent (CoreState.mk .ready 1234) .ready 9999
      sampleWiFiMgr .disconnected).2 (by decide)⟩

end CloudMouse
